import Mathlib

/-!
Verification of the funding-rate arbitrage decision engine.

All numeric quantities are modelled over ℚ (the Python code uses binary
floating point; the arithmetic expressions are translated literally and
evaluated exactly over the rationals).

Source files embedded below:
  * funding_strategy.py  — FundingRateStrategy (the SignalEngine)
  * paper_bot_v2.py      — live paper-trading path and its persisted ledger
  * optimize_params.py   — test_parameters (Backtester) and grid_search (Optimizer)
  * trade_manager.py     — close_position trade-history bookkeeping
-/

/-- The four signal strings returned by `FundingRateStrategy.generate_signal`
('LONG', 'SHORT', 'CLOSE', 'HOLD').  Open actions from the paper bot are
mapped onto the same type (OPEN_SHORT ↦ SHORT, wait ↦ HOLD). -/
inductive Signal
| LONG
| SHORT
| CLOSE
| HOLD
deriving DecidableEq

/-- Threshold configuration of `FundingRateStrategy.__init__`
(funding_strategy.py lines 15-29). -/
structure StratConfig where
  long_threshold : ℚ
  short_threshold : ℚ
  exit_threshold : ℚ
deriving DecidableEq

/-- The constructor defaults of `FundingRateStrategy`
(long_threshold=-0.003, short_threshold=0.005, exit_threshold=0.001). -/
def defaultConfig : StratConfig :=
  { long_threshold := -0.003, short_threshold := 0.005, exit_threshold := 0.001 }

/-- Mutable strategy state of `FundingRateStrategy`
(funding_strategy.py lines 31-33): position 0 = flat, 1 = long, -1 = short;
entry_price; entry_time (None at start). -/
structure StratState where
  position : Int
  entry_price : ℚ
  entry_time : Option ℚ
deriving DecidableEq

/-- Initial strategy state (`position = 0`, `entry_price = 0`,
`entry_time = None`). -/
def initStrat : StratState :=
  { position := 0, entry_price := 0, entry_time := none }

/-- `FundingRateStrategy.calculate_pnl` (funding_strategy.py lines 91-98):
raw percentage PnL with no fee term. -/
def calculatePnl (s : StratState) (current_price : ℚ) : ℚ :=
  if s.position = 0 then 0
  else if s.position = 1 then (current_price - s.entry_price) / s.entry_price * 100
  else (s.entry_price - current_price) / s.entry_price * 100

/-- `FundingRateStrategy.generate_signal` (funding_strategy.py lines 35-90)
as a pure step: given config, state and one (funding_rate, price, timestamp)
sample it returns the emitted signal and the successor state.  The
short-position elif block (lines 76-90) is mis-indented to module level in
the source file; it is embedded here at its evidently intended place inside
the method, exactly as written. -/
def generateSignal (cfg : StratConfig) (s : StratState)
    (funding_rate price timestamp : ℚ) : Signal × StratState :=
  if s.position = 0 then
    if funding_rate < cfg.long_threshold then
      (Signal.LONG,
        { position := 1, entry_price := price, entry_time := some timestamp })
    else if funding_rate > cfg.short_threshold then
      (Signal.SHORT,
        { position := -1, entry_price := price, entry_time := some timestamp })
    else
      (Signal.HOLD, s)
  else if s.position = 1 then
    if |funding_rate| < cfg.exit_threshold then
      (Signal.CLOSE, { s with position := 0 })
    else if funding_rate > cfg.short_threshold then
      (Signal.CLOSE, { s with position := 0 })
    else
      (Signal.HOLD, s)
  else
    if |funding_rate| < cfg.exit_threshold then
      (Signal.CLOSE, { s with position := 0 })
    else if funding_rate < cfg.long_threshold then
      (Signal.CLOSE, { s with position := 0 })
    else if calculatePnl s price > 1.0 then
      (Signal.CLOSE, { s with position := 0 })
    else
      (Signal.HOLD, s)

/-- Claim C1: corrected.  In the Long state `generate_signal` evaluates only
two exit conditions, in priority order: (1) reversion |fundingRate| <
exitThreshold, (2) rate-reversal fundingRate > shortThreshold; the first that
holds yields Close with position cleared to 0 (entry fields retained), and if
neither holds the result is Hold with the state unchanged.  No stop-loss or
take-profit condition and no PnL computation participates in the decision. -/
theorem c1_long_exit (cfg : StratConfig) (s : StratState)
    (fr price ts : ℚ) (h : s.position = 1) :
    generateSignal cfg s fr price ts =
      if |fr| < cfg.exit_threshold then (Signal.CLOSE, { s with position := 0 })
      else if fr > cfg.short_threshold then (Signal.CLOSE, { s with position := 0 })
      else (Signal.HOLD, s) := by
  simp [generateSignal, h]

/-- Witness for `c1_long_exit` at a concrete Long state and sample. -/
theorem c1_long_exit_witness :
    (StratState.mk 1 100 (some 0)).position = 1 ∧
    generateSignal defaultConfig (StratState.mk 1 100 (some 0)) 0.0005 105 7 =
      (if |(0.0005 : ℚ)| < defaultConfig.exit_threshold then
        (Signal.CLOSE, { StratState.mk 1 100 (some 0) with position := 0 })
      else if (0.0005 : ℚ) > defaultConfig.short_threshold then
        (Signal.CLOSE, { StratState.mk 1 100 (some 0) with position := 0 })
      else (Signal.HOLD, StratState.mk 1 100 (some 0))) :=
  ⟨rfl, c1_long_exit defaultConfig (StratState.mk 1 100 (some 0)) 0.0005 105 7 rfl⟩

/-- Counterexample to Claim C1 as stated: in the Long state (entry 100) with
price 50 and funding rate 0.002 under the default thresholds, the claimed
stop-loss condition pnl = (50-100)/100*100 - 0.1 ≤ -2 holds while reversion
and rate-reversal both fail, so the claim predicts Close; the code returns
Hold with the state unchanged. -/
theorem c1_counterexample :
    ((50 : ℚ) - 100) / 100 * 100 - 0.1 ≤ -2 ∧
    ¬ |(0.002 : ℚ)| < defaultConfig.exit_threshold ∧
    ¬ (0.002 : ℚ) > defaultConfig.short_threshold ∧
    generateSignal defaultConfig (StratState.mk 1 100 (some 0)) 0.002 50 1 =
      (Signal.HOLD, StratState.mk 1 100 (some 0)) ∧
    Signal.HOLD ≠ Signal.CLOSE := by
  refine ⟨by norm_num, ?_, by norm_num [defaultConfig], ?_, by simp⟩
  · norm_num [abs_lt, defaultConfig]
  · norm_num [generateSignal, calculatePnl, defaultConfig, abs_lt]

/-- Claim C2: corrected.  In the Short state `generate_signal` evaluates
three exit conditions in priority order: (1) reversion |fundingRate| <
exitThreshold, (2) rate-reversal fundingRate < longThreshold, (3) take-profit
raw pnl (entryPrice - price)/entryPrice*100 > 1.0 with no fee subtracted; the
first that holds yields Close with position cleared to 0, otherwise Hold with
the state unchanged.  There is no stop-loss condition and the PnL carries no
fee term. -/
theorem c2_short_exit (cfg : StratConfig) (s : StratState)
    (fr price ts : ℚ) (h : s.position = -1) :
    generateSignal cfg s fr price ts =
      if |fr| < cfg.exit_threshold then (Signal.CLOSE, { s with position := 0 })
      else if fr < cfg.long_threshold then (Signal.CLOSE, { s with position := 0 })
      else if (s.entry_price - price) / s.entry_price * 100 > 1.0 then
        (Signal.CLOSE, { s with position := 0 })
      else (Signal.HOLD, s) := by
  simp [generateSignal, calculatePnl, h]

/-- Witness for `c2_short_exit` at a concrete Short state and sample. -/
theorem c2_short_exit_witness :
    (StratState.mk (-1) 100 (some 0)).position = -1 ∧
    generateSignal defaultConfig (StratState.mk (-1) 100 (some 0)) 0.0005 95 7 =
      (if |(0.0005 : ℚ)| < defaultConfig.exit_threshold then
        (Signal.CLOSE, { StratState.mk (-1) 100 (some 0) with position := 0 })
      else if (0.0005 : ℚ) < defaultConfig.long_threshold then
        (Signal.CLOSE, { StratState.mk (-1) 100 (some 0) with position := 0 })
      else if ((100 : ℚ) - 95) / 100 * 100 > 1.0 then
        (Signal.CLOSE, { StratState.mk (-1) 100 (some 0) with position := 0 })
      else (Signal.HOLD, StratState.mk (-1) 100 (some 0))) :=
  ⟨rfl, c2_short_exit defaultConfig (StratState.mk (-1) 100 (some 0)) 0.0005 95 7 rfl⟩

/-- Counterexample to Claim C2 as stated: in the Short state (entry 100) with
price 200 and funding rate 0.002, the claimed stop-loss condition pnl =
(100-200)/100*100 - 0.1 ≤ -2 holds while reversion and rate-reversal fail, so
the claim predicts Close; the code returns Hold (its only remaining check is
the raw-pnl > 1.0 take-profit, which fails at pnl = -100). -/
theorem c2_counterexample :
    ((100 : ℚ) - 200) / 100 * 100 - 0.1 ≤ -2 ∧
    ¬ |(0.002 : ℚ)| < defaultConfig.exit_threshold ∧
    ¬ (0.002 : ℚ) < defaultConfig.long_threshold ∧
    generateSignal defaultConfig (StratState.mk (-1) 100 (some 0)) 0.002 200 1 =
      (Signal.HOLD, StratState.mk (-1) 100 (some 0)) ∧
    Signal.HOLD ≠ Signal.CLOSE := by
  refine ⟨by norm_num, ?_, by norm_num [defaultConfig], ?_, by simp⟩
  · norm_num [abs_lt, defaultConfig]
  · norm_num [generateSignal, calculatePnl, defaultConfig, abs_lt]

/-- Hard-coded strategy parameters of paper_bot_v2.py (lines 14-17). -/
def SHORT_THRESHOLD : ℚ := 0.003

/-- paper_bot_v2.py EXIT_THRESHOLD = 0.001. -/
def EXIT_THRESHOLD : ℚ := 0.001

/-- paper_bot_v2.py STOP_LOSS = -2.0. -/
def STOP_LOSS : ℚ := -2.0

/-- paper_bot_v2.py TAKE_PROFIT = 1.5. -/
def TAKE_PROFIT : ℚ := 1.5

/-- One entry of the paper bot's `state['trades']` list: open records carry
action 'OPEN_SHORT' with price/rate/time, close records carry action 'CLOSE'
with an additional pnl field (modelled as `Option`, `none` on opens). -/
structure PaperTrade where
  action : String
  price : ℚ
  rate : ℚ
  pnl : Option ℚ
  time : ℚ
deriving DecidableEq

/-- The paper bot's persisted state dict (paper_bot_v2.py load_state):
balance, position (None or 'SHORT'), entry_price, entry_time, trades. -/
structure PaperState where
  balance : ℚ
  position : Option String
  entry_price : ℚ
  entry_time : Option ℚ
  trades : List PaperTrade
deriving DecidableEq

/-- Default initial state returned by `load_state` when no state file exists
(paper_bot_v2.py lines 44-50). -/
def initPaperState : PaperState :=
  { balance := 50.0
    position := none
    entry_price := 0
    entry_time := none
    trades := [] }

/-- Fee-adjusted short PnL of paper_bot_v2.py line 115:
`pnl = ((entry_price - price) / entry_price) * 100 - 0.1`. -/
def paperPnl (state : PaperState) (price : ℚ) : ℚ :=
  (state.entry_price - price) / state.entry_price * 100 - 0.1

/-- Realized amount of paper_bot_v2.py line 116:
`pnl_amount = balance * 0.3 * (pnl / 100)`. -/
def paperPnlAmount (state : PaperState) (price : ℚ) : ℚ :=
  state.balance * 0.3 * (paperPnl state price / 100)

/-- The close decision of paper_bot_v2.py lines 128-136 (`should_close`
if/elif chain: reversion, take-profit, stop-loss). -/
def paperShouldClose (rate pnl : ℚ) : Bool :=
  if |rate| < EXIT_THRESHOLD then true
  else if pnl > TAKE_PROFIT then true
  else if pnl < STOP_LOSS then true
  else false

/-- The per-cycle decision logic of paper_bot_v2.py `main` (lines 92-159),
as a pure step on the persisted state given one (price, rate) observation and
the current wall-clock timestamp.  The emitted action is reported on the
shared `Signal` type (open-short ↦ SHORT, close ↦ CLOSE, wait/hold ↦ HOLD). -/
def paperStep (price rate ts : ℚ) (state : PaperState) : Signal × PaperState :=
  if state.position = none then
    if rate > SHORT_THRESHOLD then
      (Signal.SHORT,
        { state with
          position := some "SHORT"
          entry_price := price
          entry_time := some ts
          trades := state.trades ++
            [{ action := "OPEN_SHORT", price := price, rate := rate, pnl := none, time := ts }] })
    else
      (Signal.HOLD, state)
  else
    if paperShouldClose rate (paperPnl state price) then
      (Signal.CLOSE,
        { balance := state.balance + paperPnlAmount state price
          position := none
          entry_price := 0
          entry_time := none
          trades := state.trades ++
            [{ action := "CLOSE", price := price, rate := rate, pnl := some (paperPnl state price), time := ts }] })
    else
      (Signal.HOLD, state)

/-- Threshold configuration matching the paper bot's hard-coded constants,
with the strategy's default long threshold (the live path has no long-entry
parameter at all). -/
def paperConfig : StratConfig :=
  { long_threshold := -0.003
    short_threshold := SHORT_THRESHOLD
    exit_threshold := EXIT_THRESHOLD }

/-- Claim C3: corrected.  From the fresh Flat state on a single sample, the
live paper-bot path and the SignalEngine agree exactly when the funding rate
is not below the long threshold: both open Short iff rate > shortThreshold
and hold otherwise.  (They diverge when rate < longThreshold — the engine
opens Long, the live path holds — and their exit logics also differ, so the
two paths are not bit-identical in general.) -/
theorem c3_flat_agreement (price rate ts : ℚ)
    (h : ¬ rate < paperConfig.long_threshold) :
    (paperStep price rate ts initPaperState).1 =
      (generateSignal paperConfig initStrat rate price ts).1 := by
  have h2 : ¬ rate < (-0.003 : ℚ) := by simpa [paperConfig] using h
  by_cases hs : rate > SHORT_THRESHOLD
  · simp [paperStep, generateSignal, initPaperState, initStrat, paperConfig,
      h2, hs]
  · simp [paperStep, generateSignal, initPaperState, initStrat, paperConfig,
      h2, hs]

/-- Witness for `c3_flat_agreement` at a concrete sample. -/
theorem c3_flat_agreement_witness :
    ¬ (0.01 : ℚ) < paperConfig.long_threshold ∧
    (paperStep 100 0.01 0 initPaperState).1 =
      (generateSignal paperConfig initStrat 0.01 100 0).1 :=
  ⟨by norm_num [paperConfig], c3_flat_agreement 100 0.01 0
    (by norm_num [paperConfig])⟩

/-- Counterexample to Claim C3 as stated: on the identical input (price 100,
funding rate -0.01, matching thresholds) from the fresh Flat state, the
backtest engine emits Open(Long) while the live path emits no action at all
(it has no long-entry branch), so live and backtest decisions are not
bit-identical. -/
theorem c3_counterexample :
    (generateSignal paperConfig initStrat (-0.01) 100 0).1 = Signal.LONG ∧
    (paperStep 100 (-0.01) 0 initPaperState).1 = Signal.HOLD ∧
    Signal.LONG ≠ Signal.HOLD := by
  refine ⟨?_, ?_, by simp⟩
  · norm_num [generateSignal, initStrat, paperConfig]
  · norm_num [paperStep, initPaperState, SHORT_THRESHOLD]

/-- Number of 'OPEN_SHORT' records in a paper-bot trade log. -/
def countOpens (l : List PaperTrade) : ℕ :=
  (l.filter fun t => t.action = "OPEN_SHORT").length

/-- Number of 'CLOSE' records in a paper-bot trade log. -/
def countCloses (l : List PaperTrade) : ℕ :=
  (l.filter fun t => t.action = "CLOSE").length

/-- The ledger invariant of Claim C4 for the paper bot's persisted state:
a Flat (None) position carries no residual entry price or entry time, and
the trade log holds exactly one unmatched open record iff a position is
held. -/
def ledgerInv (st : PaperState) : Prop :=
  (st.position = none → st.entry_price = 0 ∧ st.entry_time = none) ∧
  countOpens st.trades = countCloses st.trades +
    (if st.position = none then 0 else 1)

/-- Claim C4: corrected.  The paper bot's ledger preserves the invariant:
the initial state satisfies it, and every step keeps it — in particular the
close branch resets entry_price to 0 and entry_time to None, and non-Flat
states are matched by exactly one in-flight (unclosed) trade record.  (The
SignalEngine itself, by contrast, clears only `position` on Close and leaves
residual entry fields — see the counterexample.) -/
theorem c4_ledger_invariant (st : PaperState) (price rate ts : ℚ)
    (h : ledgerInv st) :
    ledgerInv initPaperState ∧ ledgerInv (paperStep price rate ts st).2 := by
  obtain ⟨hflat, hcount⟩ := h
  refine ⟨⟨fun _ => ⟨rfl, rfl⟩, by simp [initPaperState, countOpens, countCloses]⟩, ?_⟩
  by_cases hpos : st.position = none
  · rw [if_pos hpos] at hcount
    simp only [paperStep, if_pos hpos]
    by_cases hs : rate > SHORT_THRESHOLD
    · rw [if_pos hs]
      refine ⟨by simp, ?_⟩
      simp only [countOpens, countCloses] at hcount ⊢
      simp [List.filter_append]
      omega
    · rw [if_neg hs]
      exact ⟨hflat, by rw [if_pos hpos]; exact hcount⟩
  · rw [if_neg hpos] at hcount
    simp only [paperStep, if_neg hpos]
    by_cases hc : paperShouldClose rate (paperPnl st price) = true
    · rw [if_pos hc]
      refine ⟨fun _ => ⟨rfl, rfl⟩, ?_⟩
      simp only [countOpens, countCloses] at hcount ⊢
      simp [List.filter_append]
      omega
    · rw [if_neg hc]
      exact ⟨hflat, by rw [if_neg hpos]; exact hcount⟩

/-- Witness for `c4_ledger_invariant`: the invariant holds of the initial
state and is kept by a concrete opening step. -/
theorem c4_ledger_invariant_witness :
    ledgerInv initPaperState ∧
    (ledgerInv initPaperState ∧
      ledgerInv (paperStep 100 0.01 0 initPaperState).2) := by
  have hinv : ledgerInv initPaperState := by
    refine ⟨fun _ => ⟨rfl, rfl⟩, ?_⟩
    simp [initPaperState, countOpens, countCloses]
  exact ⟨hinv, c4_ledger_invariant initPaperState 100 0.01 0 hinv⟩

/-- Counterexample to Claim C4 as stated: in the SignalEngine a reversion
Close from the Long state yields position 0 (Flat) while entry_price stays
100 and entry_time stays set — the resulting Flat state retains residual
entry data, contradicting "Flat implies entryPrice/entryTimestamp are
unset". -/
theorem c4_counterexample :
    generateSignal defaultConfig (StratState.mk 1 100 (some 0)) 0.0002 105 7 =
      (Signal.CLOSE, StratState.mk 0 100 (some 0)) ∧
    (StratState.mk 0 100 (some 0)).position = 0 ∧
    (StratState.mk 0 100 (some 0)).entry_price ≠ 0 ∧
    (StratState.mk 0 100 (some 0)).entry_time ≠ none := by
  refine ⟨?_, rfl, by norm_num, by simp⟩
  norm_num [generateSignal, defaultConfig, abs_lt]

/-- One historical observation row (timestamp, price, funding_rate), as
consumed from the CSV by optimize_params.py test_parameters. -/
structure Sample where
  timestamp : ℚ
  price : ℚ
  funding_rate : ℚ
deriving DecidableEq

/-- One entry of the `trades` list built by optimize_params.py
test_parameters: opens append `{type, entry_price, entry_time,
entry_funding}`; a later close adds `exit_price`, `exit_time`, `pnl`
(modelled as `Option`, `none` until set).  A trade is completed exactly when
`pnl` is set (`'pnl' in t`). -/
structure TPTrade where
  ttype : Signal
  entry_price : ℚ
  entry_time : ℚ
  entry_funding : ℚ
  exit_price : Option ℚ
  exit_time : Option ℚ
  pnl : Option ℚ
deriving DecidableEq

/-- Loop state of test_parameters: the strategy object, the trades list and
the running total_pnl accumulator. -/
structure TPAcc where
  strat : StratState
  trades : List TPTrade
  total_pnl : ℚ
deriving DecidableEq

/-- Fresh loop state: new strategy, empty trades, total_pnl = 0. -/
def initTPAcc : TPAcc :=
  { strat := initStrat, trades := [], total_pnl := 0 }

/-- Replace the final element of a list (Python `trades[-1]` mutation);
identity on the empty list. -/
def updateLast (f : α → α) : List α → List α
  | [] => []
  | [a] => [f a]
  | a :: b :: rest => a :: updateLast f (b :: rest)

/-- Read the final element of a list (Python `trades[-1]`, guarded by
`len(trades) > 0`). -/
def lastTrade : List α → Option α
  | [] => none
  | [a] => some a
  | _ :: b :: rest => lastTrade (b :: rest)

/-- Close PnL of optimize_params.py lines 48-54: long (price-entry)/entry*100,
short (entry-price)/entry*100, minus the 0.1 round-trip fee. -/
def tpTradePnl (last_trade : TPTrade) (price : ℚ) : ℚ :=
  (if last_trade.ttype = Signal.LONG then
    (price - last_trade.entry_price) / last_trade.entry_price * 100
  else
    (last_trade.entry_price - price) / last_trade.entry_price * 100) - 0.1

/-- One iteration of the test_parameters replay loop (optimize_params.py
lines 30-60): run generate_signal, then on LONG/SHORT append an open trade
record, on CLOSE (with a non-empty trades list) set exit fields and pnl on
the last trade and add the pnl to total_pnl, otherwise change nothing. -/
def tpStep (cfg : StratConfig) (acc : TPAcc) (row : Sample) : TPAcc :=
  match generateSignal cfg acc.strat row.funding_rate row.price row.timestamp with
  | (Signal.LONG, st) =>
    { strat := st
      trades := acc.trades ++
        [{ ttype := Signal.LONG, entry_price := row.price, entry_time := row.timestamp,
           entry_funding := row.funding_rate, exit_price := none, exit_time := none, pnl := none }]
      total_pnl := acc.total_pnl }
  | (Signal.SHORT, st) =>
    { strat := st
      trades := acc.trades ++
        [{ ttype := Signal.SHORT, entry_price := row.price, entry_time := row.timestamp,
           entry_funding := row.funding_rate, exit_price := none, exit_time := none, pnl := none }]
      total_pnl := acc.total_pnl }
  | (Signal.CLOSE, st) =>
    match lastTrade acc.trades with
    | some last_trade =>
      { strat := st
        trades := updateLast
          (fun t => { t with
            exit_price := some row.price
            exit_time := some row.timestamp
            pnl := some (tpTradePnl last_trade row.price) }) acc.trades
        total_pnl := acc.total_pnl + tpTradePnl last_trade row.price }
    | none => { acc with strat := st }
  | (Signal.HOLD, st) => { acc with strat := st }

/-- Replay a sample sequence through the test_parameters loop from a given
loop state. -/
def tpRun (cfg : StratConfig) (acc0 : TPAcc) (rows : List Sample) : TPAcc :=
  rows.foldl (tpStep cfg) acc0

/-- `completed_trades = [t for t in trades if 'pnl' in t]`. -/
def tpCompletedOf (acc : TPAcc) : List TPTrade :=
  acc.trades.filter fun t => t.pnl.isSome

/-- `win_trades = [t for t in completed_trades if t['pnl'] > 0]`. -/
def tpWinsOf (acc : TPAcc) : List TPTrade :=
  (tpCompletedOf acc).filter fun t => decide ((0 : ℚ) < t.pnl.getD 0)

/-- The statistics dict returned by test_parameters (optimize_params.py
lines 62-73). -/
structure TPResult where
  total_trades : ℕ
  win_rate : ℚ
  total_pnl : ℚ
  avg_pnl : ℚ
  max_pnl : ℚ
  min_pnl : ℚ
deriving DecidableEq

/-- The statistics block of test_parameters: every division is guarded by
`if completed_trades` (0 when there are no completed trades). -/
def tpResultOf (acc : TPAcc) : TPResult :=
  { total_trades := (tpCompletedOf acc).length
    win_rate := if (tpCompletedOf acc).isEmpty then 0
      else ((tpWinsOf acc).length : ℚ) / ((tpCompletedOf acc).length : ℚ) * 100
    total_pnl := acc.total_pnl
    avg_pnl := if (tpCompletedOf acc).isEmpty then 0
      else acc.total_pnl / ((tpCompletedOf acc).length : ℚ)
    max_pnl := if (tpCompletedOf acc).isEmpty then 0
      else (((tpCompletedOf acc).map fun t => t.pnl.getD 0).max?.getD 0)
    min_pnl := if (tpCompletedOf acc).isEmpty then 0
      else (((tpCompletedOf acc).map fun t => t.pnl.getD 0).min?.getD 0) }

/-- optimize_params.py `test_parameters`: one full backtest as a pure
function of the threshold configuration and the sample sequence, always
starting from a fresh strategy. -/
def testParameters (cfg : StratConfig) (rows : List Sample) : TPResult :=
  tpResultOf (tpRun cfg initTPAcc rows)

/-- Claim C7: confirmed.  The backtest is a deterministic pure function of
(config, samples): any two runs that each start from the fresh flat loop
state (a new `FundingRateStrategy`, empty trades, zero total) produce
identical results — there is no hidden or retained state between runs. -/
theorem c7_deterministic (cfg : StratConfig) (rows : List Sample)
    (a1 a2 : TPAcc) (h1 : a1 = initTPAcc) (h2 : a2 = initTPAcc) :
    tpResultOf (tpRun cfg a1 rows) = tpResultOf (tpRun cfg a2 rows) ∧
    tpResultOf (tpRun cfg a1 rows) = testParameters cfg rows := by
  subst h1
  subst h2
  exact ⟨rfl, rfl⟩

/-- Witness for `c7_deterministic` on a concrete sample sequence. -/
theorem c7_deterministic_witness :
    initTPAcc = initTPAcc ∧
    (tpResultOf (tpRun defaultConfig initTPAcc [Sample.mk 1 100 0.01]) =
        tpResultOf (tpRun defaultConfig initTPAcc [Sample.mk 1 100 0.01]) ∧
      tpResultOf (tpRun defaultConfig initTPAcc [Sample.mk 1 100 0.01]) =
        testParameters defaultConfig [Sample.mk 1 100 0.01]) :=
  ⟨rfl, c7_deterministic defaultConfig [Sample.mk 1 100 0.01] initTPAcc initTPAcc rfl rfl⟩

/-- Claim C8: confirmed.  avg_pnl equals total_pnl divided by the number of
completed trades when that number is positive and 0 when there are none; the
win-rate division is guarded the same way, for every configuration and every
sample sequence including the empty one. -/
theorem c8_stats_guarded (cfg : StratConfig) (rows : List Sample) :
    ((testParameters cfg rows).total_trades = 0 →
      (testParameters cfg rows).avg_pnl = 0 ∧
      (testParameters cfg rows).win_rate = 0) ∧
    (0 < (testParameters cfg rows).total_trades →
      (testParameters cfg rows).avg_pnl =
        (testParameters cfg rows).total_pnl /
          ((testParameters cfg rows).total_trades : ℚ)) := by
  cases hL : tpCompletedOf (tpRun cfg initTPAcc rows) with
  | nil =>
    constructor
    · intro _
      constructor <;> simp [testParameters, tpResultOf, hL]
    · intro hpos
      rw [show (testParameters cfg rows).total_trades =
        (tpCompletedOf (tpRun cfg initTPAcc rows)).length from rfl, hL] at hpos
      simp at hpos
  | cons a l =>
    constructor
    · intro h0
      rw [show (testParameters cfg rows).total_trades =
        (tpCompletedOf (tpRun cfg initTPAcc rows)).length from rfl, hL] at h0
      simp at h0
    · intro _
      simp [testParameters, tpResultOf, hL]

/-- Witness for `c8_stats_guarded` on the empty sample sequence. -/
theorem c8_stats_guarded_witness :
    (testParameters defaultConfig []).total_trades = 0 ∧
    ((testParameters defaultConfig []).avg_pnl = 0 ∧
      (testParameters defaultConfig []).win_rate = 0) :=
  ⟨rfl, (c8_stats_guarded defaultConfig []).1 rfl⟩

/-- Claim C6: corrected.  `generate_signal` emits exactly one action per
sample, so a Close and an Open never fire together; from Flat, two
consecutive samples whose funding rate both exceed the short threshold
(with sane thresholds exit ≤ short, long ≤ short, 0 ≤ short) produce one
Open(Short) and then never another open — but the second action is Hold
only when the short position's raw PnL (p1-p2)/p1*100 does not exceed the
hard-coded 1.0 take-profit; otherwise it is a Close. -/
theorem c6_no_double_open (cfg : StratConfig) (r1 p1 t1 r2 p2 t2 : ℚ)
    (hst : 0 ≤ cfg.short_threshold)
    (het : cfg.exit_threshold ≤ cfg.short_threshold)
    (hlt : cfg.long_threshold ≤ cfg.short_threshold)
    (h1 : cfg.short_threshold < r1) (h2 : cfg.short_threshold < r2) :
    (generateSignal cfg initStrat r1 p1 t1).1 = Signal.SHORT ∧
    (generateSignal cfg (generateSignal cfg initStrat r1 p1 t1).2 r2 p2 t2).1 ≠
      Signal.SHORT ∧
    (generateSignal cfg (generateSignal cfg initStrat r1 p1 t1).2 r2 p2 t2).1 ≠
      Signal.LONG ∧
    ((p1 - p2) / p1 * 100 ≤ 1 →
      (generateSignal cfg (generateSignal cfg initStrat r1 p1 t1).2 r2 p2 t2).1 =
        Signal.HOLD) := by
  have hr1lt : ¬ r1 < cfg.long_threshold := not_lt.mpr (le_trans hlt (le_of_lt h1))
  have hfirst : generateSignal cfg initStrat r1 p1 t1 =
      (Signal.SHORT, StratState.mk (-1) p1 (some t1)) := by
    simp [generateSignal, initStrat, hr1lt, h1]
  have habs : ¬ |r2| < cfg.exit_threshold := by
    rw [abs_of_nonneg (le_trans hst (le_of_lt h2))]
    exact not_lt.mpr (le_trans het (le_of_lt h2))
  have hr2lt : ¬ r2 < cfg.long_threshold := not_lt.mpr (le_trans hlt (le_of_lt h2))
  have hpnl_eq : calculatePnl (StratState.mk (-1) p1 (some t1)) p2 =
      (p1 - p2) / p1 * 100 := by
    simp [calculatePnl]
  rw [hfirst]
  by_cases hp : calculatePnl (StratState.mk (-1) p1 (some t1)) p2 > 1.0
  · have hsec : (generateSignal cfg (StratState.mk (-1) p1 (some t1)) r2 p2 t2).1 =
        Signal.CLOSE := by
      simp [generateSignal, habs, hr2lt, hp]
    refine ⟨rfl, ?_, ?_, ?_⟩
    · rw [hsec]; simp
    · rw [hsec]; simp
    · intro hple
      rw [hpnl_eq] at hp
      norm_num at hp
      linarith
  · have hsec : (generateSignal cfg (StratState.mk (-1) p1 (some t1)) r2 p2 t2).1 =
        Signal.HOLD := by
      simp [generateSignal, habs, hr2lt, hp]
    refine ⟨rfl, ?_, ?_, fun _ => hsec⟩
    · rw [hsec]; simp
    · rw [hsec]; simp

/-- Witness for `c6_no_double_open` at the default thresholds with two
consecutive rate-0.01 samples and an unchanged price. -/
theorem c6_no_double_open_witness :
    (0 ≤ defaultConfig.short_threshold ∧
      defaultConfig.exit_threshold ≤ defaultConfig.short_threshold ∧
      defaultConfig.long_threshold ≤ defaultConfig.short_threshold ∧
      defaultConfig.short_threshold < 0.01 ∧
      defaultConfig.short_threshold < 0.01) ∧
    ((generateSignal defaultConfig initStrat 0.01 100 1).1 = Signal.SHORT ∧
      (generateSignal defaultConfig
        (generateSignal defaultConfig initStrat 0.01 100 1).2 0.01 100 2).1 ≠
        Signal.SHORT ∧
      (generateSignal defaultConfig
        (generateSignal defaultConfig initStrat 0.01 100 1).2 0.01 100 2).1 ≠
        Signal.LONG ∧
      (((100 : ℚ) - 100) / 100 * 100 ≤ 1 →
        (generateSignal defaultConfig
          (generateSignal defaultConfig initStrat 0.01 100 1).2 0.01 100 2).1 =
          Signal.HOLD)) :=
  ⟨⟨by norm_num [defaultConfig], by norm_num [defaultConfig],
    by norm_num [defaultConfig], by norm_num [defaultConfig],
    by norm_num [defaultConfig]⟩,
    c6_no_double_open defaultConfig 0.01 100 1 0.01 100 2
      (by norm_num [defaultConfig]) (by norm_num [defaultConfig])
      (by norm_num [defaultConfig]) (by norm_num [defaultConfig])
      (by norm_num [defaultConfig])⟩

/-- Counterexample to Claim C6 as stated: two consecutive samples with
funding rate 0.01 (> shortThreshold 0.005) but a price drop from 100 to 90
produce Open(Short) followed by Close (the short branch's raw-PnL
take-profit fires at +10%), not by Hold as the claim asserts. -/
theorem c6_counterexample :
    defaultConfig.short_threshold < 0.01 ∧
    generateSignal defaultConfig initStrat 0.01 100 1 =
      (Signal.SHORT, StratState.mk (-1) 100 (some 1)) ∧
    (generateSignal defaultConfig (StratState.mk (-1) 100 (some 1)) 0.01 90 2).1 =
      Signal.CLOSE ∧
    Signal.CLOSE ≠ Signal.HOLD := by
  refine ⟨by norm_num [defaultConfig], ?_, ?_, by simp⟩
  · norm_num [generateSignal, initStrat, defaultConfig, abs_lt]
  · norm_num [generateSignal, calculatePnl, defaultConfig, abs_lt]

/-- The full Cartesian product enumerated by
`itertools.product(long_thresholds, short_thresholds, exit_thresholds)`
in optimize_params.py grid_search (line 93), in enumeration order. -/
def cartProd (ls ss es : List ℚ) : List (ℚ × ℚ × ℚ) :=
  ls.flatMap fun lt => ss.flatMap fun sh => es.map fun et => (lt, sh, et)

/-- One row of the grid_search results table: the test_parameters result
dict augmented with the three thresholds (optimize_params.py lines 94-104). -/
structure GridRow where
  res : TPResult
  long_threshold : ℚ
  short_threshold : ℚ
  exit_threshold : ℚ
deriving DecidableEq

/-- Run one backtest for one parameter combination and build its results
row. -/
def gridRow (rows : List Sample) (c : ℚ × ℚ × ℚ) : GridRow :=
  { res := testParameters (StratConfig.mk c.1 c.2.1 c.2.2) rows
    long_threshold := c.1
    short_threshold := c.2.1
    exit_threshold := c.2.2 }

/-- The unsorted results list of grid_search: exactly one backtest per
Cartesian-product element, in enumeration order. -/
def gridResults (ls ss es : List ℚ) (rows : List Sample) : List GridRow :=
  (cartProd ls ss es).map (gridRow rows)

/-- Ordered insertion for the descending total_pnl sort: the new row goes
before the first existing row that does not strictly beat it (so equal
total_pnl keeps enumeration order — the model's determinization of
`df.sort_values('total_pnl', ascending=False)`, whose tie order pandas
leaves unspecified; the code sorts on the single key total_pnl only). -/
def insertByPnl (x : GridRow) : List GridRow → List GridRow
  | [] => [x]
  | y :: ys =>
    if y.res.total_pnl > x.res.total_pnl then y :: insertByPnl x ys
    else x :: y :: ys

/-- Insertion sort by total_pnl descending (models
`df.sort_values('total_pnl', ascending=False)`, optimize_params.py
line 110). -/
def sortByPnl : List GridRow → List GridRow
  | [] => []
  | x :: xs => insertByPnl x (sortByPnl xs)

/-- optimize_params.py grid_search: run every combination and sort the
table by total_pnl descending. -/
def gridSearch (ls ss es : List ℚ) (rows : List Sample) : List GridRow :=
  sortByPnl (gridResults ls ss es rows)

/-- `best = df.iloc[0]` (optimize_params.py line 128): the first row of the
sorted table. -/
def bestParams (ls ss es : List ℚ) (rows : List Sample) : Option GridRow :=
  (gridSearch ls ss es rows).head?

/-- Number of winning completed trades of one backtest
(`len(win_trades)`). -/
def tpWinCount (cfg : StratConfig) (rows : List Sample) : ℕ :=
  (tpWinsOf (tpRun cfg initTPAcc rows)).length

theorem c5aux_inner_len (ss es : List ℚ) (lt : ℚ) :
    (ss.flatMap fun sh => es.map fun et => (lt, sh, et)).length =
      ss.length * es.length := by
  induction ss with
  | nil => simp
  | cons a l ih =>
    simp only [List.flatMap_cons, List.length_append, List.length_map, ih,
      List.length_cons]
    ring

theorem c5aux_cartProd_len (ls ss es : List ℚ) :
    (cartProd ls ss es).length = ls.length * ss.length * es.length := by
  induction ls with
  | nil => simp [cartProd]
  | cons a l ih =>
    simp only [cartProd, List.flatMap_cons, List.length_append,
      c5aux_inner_len, List.length_cons] at ih ⊢
    rw [ih]
    ring

theorem c5aux_insert_perm (x : GridRow) (l : List GridRow) :
    (insertByPnl x l).Perm (x :: l) := by
  induction l with
  | nil => simp [insertByPnl]
  | cons y ys ih =>
    by_cases h : y.res.total_pnl > x.res.total_pnl
    · simp only [insertByPnl, if_pos h]
      exact (ih.cons y).trans (List.Perm.swap x y ys)
    · simp [insertByPnl, if_neg h]

theorem c5aux_mem_insert {x a : GridRow} {l : List GridRow}
    (h : a ∈ insertByPnl x l) : a = x ∨ a ∈ l := by
  induction l with
  | nil => simpa [insertByPnl] using h
  | cons y ys ih =>
    by_cases hc : y.res.total_pnl > x.res.total_pnl
    · simp only [insertByPnl, if_pos hc] at h
      rcases List.mem_cons.mp h with h1 | h2
      · exact Or.inr (h1 ▸ List.mem_cons_self y ys)
      · rcases ih h2 with h3 | h4
        · exact Or.inl h3
        · exact Or.inr (List.mem_cons_of_mem y h4)
    · simp only [insertByPnl, if_neg hc] at h
      rcases List.mem_cons.mp h with h1 | h2
      · exact Or.inl h1
      · exact Or.inr h2

theorem c5aux_insert_sorted {x : GridRow} {l : List GridRow}
    (hl : List.Sorted (fun a b : GridRow => b.res.total_pnl ≤ a.res.total_pnl) l) :
    List.Sorted (fun a b : GridRow => b.res.total_pnl ≤ a.res.total_pnl)
      (insertByPnl x l) := by
  induction l with
  | nil => simp [insertByPnl]
  | cons y ys ih =>
    rw [List.sorted_cons] at hl
    obtain ⟨hy, hys⟩ := hl
    by_cases hc : y.res.total_pnl > x.res.total_pnl
    · simp only [insertByPnl, if_pos hc]
      rw [List.sorted_cons]
      refine ⟨?_, ih hys⟩
      intro b hb
      rcases c5aux_mem_insert hb with rfl | hbys
      · exact le_of_lt hc
      · exact hy b hbys
    · simp only [insertByPnl, if_neg hc]
      rw [List.sorted_cons]
      refine ⟨?_, List.sorted_cons.mpr ⟨hy, hys⟩⟩
      intro b hb
      rcases List.mem_cons.mp hb with rfl | hbys
      · exact le_of_not_lt hc
      · exact le_trans (hy b hbys) (le_of_not_lt hc)

theorem c5aux_sort_perm (l : List GridRow) : (sortByPnl l).Perm l := by
  induction l with
  | nil => simp [sortByPnl]
  | cons x xs ih =>
    exact (c5aux_insert_perm x (sortByPnl xs)).trans (ih.cons x)

theorem c5aux_sort_sorted (l : List GridRow) :
    List.Sorted (fun a b : GridRow => b.res.total_pnl ≤ a.res.total_pnl)
      (sortByPnl l) := by
  induction l with
  | nil => simp [sortByPnl]
  | cons x xs ih => exact c5aux_insert_sorted ih

/-- Claim C5: corrected.  grid_search runs exactly one backtest per element
of the full Cartesian product, in enumeration order; the returned table is a
permutation of those rows sorted by total_pnl descending (and by that key
only — the code has no winCount tie-break; the model resolves ties stably by
enumeration order, where pandas leaves the tie order unspecified); the
single best configuration is the first row of the sorted table. -/
theorem c5_grid_search (ls ss es : List ℚ) (rows : List Sample) :
    gridResults ls ss es rows = (cartProd ls ss es).map (gridRow rows) ∧
    (gridResults ls ss es rows).length = ls.length * ss.length * es.length ∧
    (gridSearch ls ss es rows).Perm (gridResults ls ss es rows) ∧
    List.Sorted (fun a b : GridRow => b.res.total_pnl ≤ a.res.total_pnl)
      (gridSearch ls ss es rows) ∧
    bestParams ls ss es rows = (gridSearch ls ss es rows).head? := by
  refine ⟨rfl, ?_, c5aux_sort_perm (gridResults ls ss es rows),
    c5aux_sort_sorted (gridResults ls ss es rows), rfl⟩
  rw [gridResults, List.length_map]
  exact c5aux_cartProd_len ls ss es

/-- A five-sample history on which two exit-threshold candidates tie on
total_pnl (-0.2 each) while completing a different number of winning
trades. -/
def c5samples : List Sample :=
  [Sample.mk 1 100 0.01, Sample.mk 2 99 0.0007, Sample.mk 3 101 0.01,
   Sample.mk 4 102.01 0.0007, Sample.mk 5 100.1 0.0002]

/-- Counterexample to Claim C5 as stated: with candidates long = {-0.003},
short = {0.005}, exit = {0.0005, 0.001} on `c5samples`, both combinations
total -0.2, but the first row of the returned table is the exit = 0.0005
combination with zero winning trades while the exit = 0.001 combination has
one win — ties are not broken by higher winCount (the code sorts on
total_pnl only). -/
theorem c5_counterexample :
    ((gridSearch [-0.003] [0.005] [0.0005, 0.001] c5samples).map
        fun r => (r.exit_threshold, r.res.total_pnl)) =
      [(0.0005, -0.2), (0.001, -0.2)] ∧
    tpWinCount (StratConfig.mk (-0.003) 0.005 0.0005) c5samples = 0 ∧
    tpWinCount (StratConfig.mk (-0.003) 0.005 0.001) c5samples = 1 := by
  have hne : (Signal.SHORT = Signal.LONG) = False := by simp
  refine ⟨?_, ?_, ?_⟩ <;>
    norm_num [hne, gridSearch, gridResults, cartProd, gridRow, sortByPnl,
      insertByPnl, testParameters, tpRun, tpStep, tpResultOf, tpCompletedOf,
      tpWinsOf, tpWinCount, initTPAcc, initStrat, generateSignal,
      calculatePnl, tpTradePnl, updateLast, lastTrade, c5samples, abs_lt,
      List.foldl]

/-- A JSON-shaped value, modelling what json.dump writes to the paper bot's
state file. -/
inductive JVal
| jnum (q : ℚ)
| jstr (s : String)
| jnull
| jarr (l : List JVal)
| jobj (l : List (String × JVal))

/-- Encode an optional number (None ↦ null). -/
def encodeOptNum : Option ℚ → JVal
  | none => JVal.jnull
  | some q => JVal.jnum q

/-- Encode the position field (None or a side string). -/
def encodePosition : Option String → JVal
  | none => JVal.jnull
  | some s => JVal.jstr s

/-- Encode one trade record as json.dump lays it out. -/
def encodeTrade (t : PaperTrade) : JVal :=
  JVal.jobj [("action", JVal.jstr t.action), ("price", JVal.jnum t.price),
    ("rate", JVal.jnum t.rate), ("pnl", encodeOptNum t.pnl),
    ("time", JVal.jnum t.time)]

/-- paper_bot_v2.py `save_state`: serialize the full state dict
(balance, position, entry_price, entry_time, trades) to the state file. -/
def encodeState (st : PaperState) : JVal :=
  JVal.jobj [("balance", JVal.jnum st.balance),
    ("position", encodePosition st.position),
    ("entry_price", JVal.jnum st.entry_price),
    ("entry_time", encodeOptNum st.entry_time),
    ("trades", JVal.jarr (st.trades.map encodeTrade))]

/-- Parse an optional number (null ↦ None). -/
def decodeOptNum : JVal → Option (Option ℚ)
  | JVal.jnull => some none
  | JVal.jnum q => some (some q)
  | _ => none

/-- Parse the position field. -/
def decodePosition : JVal → Option (Option String)
  | JVal.jnull => some none
  | JVal.jstr s => some (some s)
  | _ => none

/-- Parse one trade record. -/
def decodeTrade : JVal → Option PaperTrade
  | JVal.jobj [("action", JVal.jstr a), ("price", JVal.jnum p),
      ("rate", JVal.jnum r), ("pnl", pv), ("time", JVal.jnum tm)] =>
    (decodeOptNum pv).map fun pnl =>
      { action := a, price := p, rate := r, pnl := pnl, time := tm }
  | _ => none

/-- Parse a list of trade records. -/
def decodeTrades : List JVal → Option (List PaperTrade)
  | [] => some []
  | v :: vs =>
    match decodeTrade v, decodeTrades vs with
    | some t, some ts => some (t :: ts)
    | _, _ => none

/-- Parse a full persisted state. -/
def decodeState : JVal → Option PaperState
  | JVal.jobj [("balance", JVal.jnum b), ("position", pv),
      ("entry_price", JVal.jnum ep), ("entry_time", tv),
      ("trades", JVal.jarr ts)] =>
    match decodePosition pv, decodeOptNum tv, decodeTrades ts with
    | some pos, some et, some tl =>
      some { balance := b, position := pos, entry_price := ep,
             entry_time := et, trades := tl }
    | _, _, _ => none
  | _ => none

/-- paper_bot_v2.py `load_state`: read the state file if it exists, else the
default initial state (balance 50.0, no position, empty trade log). -/
def loadState : Option JVal → Option PaperState
  | none => some initPaperState
  | some j => decodeState j

theorem c9aux_decodeTrade_encode (t : PaperTrade) :
    decodeTrade (encodeTrade t) = some t := by
  obtain ⟨a, p, r, pnl, tm⟩ := t
  cases pnl <;> rfl

theorem c9aux_decodeTrades_map (l : List PaperTrade) :
    decodeTrades (l.map encodeTrade) = some l := by
  induction l with
  | nil => rfl
  | cons t ts ih =>
    simp only [List.map_cons, decodeTrades, c9aux_decodeTrade_encode, ih]

/-- Claim C9: confirmed.  Saving the full paper-bot state (balance,
position side, entry price, entry timestamp, trade log) and loading it back
reconstructs exactly the same state, and loading when no saved state exists
yields the default initial state: equity 50.0, Flat (no position), no entry
fields, empty trade log. -/
theorem c9_round_trip (st : PaperState) :
    loadState (some (encodeState st)) = some st ∧
    loadState none = some initPaperState ∧
    initPaperState.balance = 50 ∧
    initPaperState.position = none ∧
    initPaperState.entry_price = 0 ∧
    initPaperState.entry_time = none ∧
    initPaperState.trades = [] := by
  refine ⟨?_, rfl, by norm_num [initPaperState], rfl, rfl, rfl, rfl⟩
  obtain ⟨b, pos, ep, et, tl⟩ := st
  cases pos <;> cases et <;>
    simp [loadState, encodeState, decodeState, encodePosition, decodePosition,
      encodeOptNum, decodeOptNum, c9aux_decodeTrades_map]

/-- Trade record appended by trade_manager.py close_position
(lines 138-149). -/
structure TMRecord where
  rid : ℕ
  rtype : String
  entry_time : Option ℚ
  entry_price : ℚ
  close_time : ℚ
  close_price : ℚ
  pnl_percent : ℚ
  pnl_amount : ℚ
  balance_before : ℚ
  balance_after : ℚ
deriving DecidableEq

/-- trade_history.json contents (trade_manager.py load_history default:
empty trades, zero totals and counters). -/
structure TradeHistory where
  trades : List TMRecord
  total_pnl : ℚ
  win_count : ℕ
  loss_count : ℕ
deriving DecidableEq

/-- Default history when no history file exists. -/
def initHistory : TradeHistory :=
  { trades := [], total_pnl := 0, win_count := 0, loss_count := 0 }

/-- PnL ratio of trade_manager.py close_position lines 124-127 (source name
pnl with fee 0.1 subtracted; SHORT uses (entry-close), else
(close-entry)). -/
def tmPnlPercent (side : String) (entry_price close_price : ℚ) : ℚ :=
  if side = "SHORT" then (entry_price - close_price) / entry_price * 100 - 0.1
  else (close_price - entry_price) / entry_price * 100 - 0.1

/-- Realized amount: `position_size = balance * 0.3`,
`pnl_amount = position_size * (pnl_ratio / 100)` (lines 129-130). -/
def tmPnlAmount (balance : ℚ) (pr : ℚ) : ℚ :=
  balance * 0.3 * (pr / 100)

/-- The history bookkeeping of trade_manager.py close_position
(lines 136-159): append the trade record, add pnl_amount to total_pnl, and
bump win_count when pnl_amount > 0, else loss_count. -/
def recordClose (h : TradeHistory) (side : String) (entry_time : Option ℚ)
    (entry_price close_price close_time balance : ℚ) : TradeHistory :=
  { trades := h.trades ++
      [{ rid := h.trades.length + 1
         rtype := side
         entry_time := entry_time
         entry_price := entry_price
         close_time := close_time
         close_price := close_price
         pnl_percent := tmPnlPercent side entry_price close_price
         pnl_amount := tmPnlAmount balance (tmPnlPercent side entry_price close_price)
         balance_before := balance
         balance_after := balance + tmPnlAmount balance (tmPnlPercent side entry_price close_price) }]
    total_pnl := h.total_pnl + tmPnlAmount balance (tmPnlPercent side entry_price close_price)
    win_count := if tmPnlAmount balance (tmPnlPercent side entry_price close_price) > 0
      then h.win_count + 1 else h.win_count
    loss_count := if tmPnlAmount balance (tmPnlPercent side entry_price close_price) > 0
      then h.loss_count else h.loss_count + 1 }

/-- Claim C10: confirmed.  After every recorded close the counters
partition the recorded trades: win_count + loss_count equals the number of
trades; win_count is bumped exactly when the realized pnl_amount is strictly
positive; a pnl_amount of exactly zero (and any non-positive amount) is
counted in loss_count. -/
theorem c10_history_partition (h : TradeHistory) (side : String)
    (et0 : Option ℚ) (ep cp ct bal : ℚ)
    (hw : h.win_count + h.loss_count = h.trades.length) :
    ((recordClose h side et0 ep cp ct bal).win_count +
        (recordClose h side et0 ep cp ct bal).loss_count =
      (recordClose h side et0 ep cp ct bal).trades.length) ∧
    (0 < tmPnlAmount bal (tmPnlPercent side ep cp) →
      (recordClose h side et0 ep cp ct bal).win_count = h.win_count + 1 ∧
      (recordClose h side et0 ep cp ct bal).loss_count = h.loss_count) ∧
    (tmPnlAmount bal (tmPnlPercent side ep cp) ≤ 0 →
      (recordClose h side et0 ep cp ct bal).loss_count = h.loss_count + 1 ∧
      (recordClose h side et0 ep cp ct bal).win_count = h.win_count) := by
  by_cases hp : tmPnlAmount bal (tmPnlPercent side ep cp) > 0
  · refine ⟨?_, fun _ => ⟨?_, ?_⟩, fun hle => absurd hp (not_lt.mpr hle)⟩
    · simp [recordClose, if_pos hp]
      omega
    · simp [recordClose, if_pos hp]
    · simp [recordClose, if_pos hp]
  · refine ⟨?_, fun hlt => absurd hlt hp, fun _ => ⟨?_, ?_⟩⟩
    · simp [recordClose, if_neg hp]
      omega
    · simp [recordClose, if_neg hp]
    · simp [recordClose, if_neg hp]

/-- Witness for `c10_history_partition`: a zero-balance close realizes
pnl_amount exactly 0 and is counted as a loss. -/
theorem c10_history_partition_witness :
    initHistory.win_count + initHistory.loss_count = initHistory.trades.length ∧
    (tmPnlAmount 0 (tmPnlPercent "SHORT" 100 100) ≤ 0 ∧
      ((recordClose initHistory "SHORT" none 100 100 5 0).win_count +
          (recordClose initHistory "SHORT" none 100 100 5 0).loss_count =
        (recordClose initHistory "SHORT" none 100 100 5 0).trades.length) ∧
      ((recordClose initHistory "SHORT" none 100 100 5 0).loss_count =
          initHistory.loss_count + 1 ∧
        (recordClose initHistory "SHORT" none 100 100 5 0).win_count =
          initHistory.win_count)) := by
  have hle : tmPnlAmount 0 (tmPnlPercent "SHORT" 100 100) ≤ 0 := by
    norm_num [tmPnlAmount, tmPnlPercent]
  have hmain := c10_history_partition initHistory "SHORT" none 100 100 5 0 rfl
  exact ⟨rfl, hle, hmain.1, hmain.2.2 hle⟩
